import Mathlib

/-!
Verification of the yed-terminal VT100/ANSI emulation core (src/terminal.cpp)
against its natural-language specification.  The C++ data model and the
operations the claims mention are embedded shallowly below: `Screen`
mirrors `struct Screen`, the `CSI`/`OSC`/`DCS` constructors are embedded as
byte-list scanners, `TermState` mirrors the mutable fields of `struct Term`,
and `termUpdate` mirrors `Term::update`'s decode loop.  Machine ints are
modelled as `Int` (with explicit 32-bit wraparound where the source relies
on overflow), glyphs as byte lists, and bytes as `Nat`.
-/

/-- Clamp helper mirroring yed's LIMIT macro: the low bound is applied
first, then the high bound. -/
def limitI (x lo hi : Int) : Int := min (max x lo) hi

/-- Replace the element at index `i` by `f` of it; out-of-range indices
leave the list unchanged (all uses in the embedding are in range). -/
def modifyAt (l : List α) (i : Nat) (f : α → α) : List α :=
  match l.get? i with
  | some x => l.set i (f x)
  | none   => l


/-- Mirror of std::vector::resize(n, fill): truncate or pad with `fill`. -/
def resizeTo (l : List α) (n : Nat) (fill : α) : List α :=
  l.take n ++ List.replicate (n - l.length) fill


/-- Apply `f` to `a`, `n` times in sequence (a counted for-loop body). -/
def applyN (n : Nat) (f : α → α) (a : α) : α :=
  match n with
  | 0 => a
  | k+1 => applyN k f (f a)

/-- The ascending run of integers lo, lo+1, ..., hi (empty when hi < lo). -/
def upTo (lo hi : Int) : List Int :=
  (List.range (hi + 1 - lo).toNat).map (fun k => lo + (k : Int))

/-- The descending run of integers hi, hi-1, ..., lo (empty when hi < lo). -/
def downFrom (hi lo : Int) : List Int :=
  (List.range (hi + 1 - lo).toNat).map (fun k => hi - (k : Int))

/-- ASCII decimal digits of a natural number (std::to_string). -/
def natDecAux (fuel n : Nat) : List Nat :=
  match fuel with
  | 0 => []
  | f+1 => if n < 10 then [48 + n] else natDecAux f (n / 10) ++ [48 + n % 10]

def natDec (n : Nat) : List Nat := natDecAux (n + 1) n

/-- Decimal rendering of a nonnegative Int (all rendered values in the
source are cursor coordinates, which are at least 1). -/
def intDec (i : Int) : List Nat := natDec i.toNat

/-- Signed 32-bit wraparound, used where the source increments a C `int`
past INT_MAX (formally undefined behavior; the observed wraparound is
modelled explicitly). -/
def wrap32 (x : Int) : Int := (x + 2^31) % 2^32 - 2^31

/-- ASCII digit test (yed's is_digit). -/
def isDigitB (c : Nat) : Bool := 48 ≤ c && c ≤ 57

/-- Value of an ASCII digit string, 0 when empty (sscanf "%ld" leaves the
initialised-to-zero target unchanged on an empty string). -/
def digitsVal (ds : List Nat) : Int :=
  ds.foldl (fun acc d => acc * 10 + ((d : Int) - 48)) 0

/-- C-locale iscntrl over one byte. -/
def isCntrlB (c : Nat) : Bool := c ≤ 31 || c = 127

section DataModel

/-- Text attribute snapshot.  yed's bit-packed `yed_attrs` lives in the
external yed header (not under src/); modelled from the spec: flags for
bold/underline/inverse, a colour kind tag for each of fg/bg (0 none,
1 sixteen-colour, 2 two-fifty-six-colour, 3 RGB), the light-intensity bit
of the 16-colour kinds, and the raw fg/bg values. -/
structure Attrs where
  bold      : Bool := false
  underline : Bool := false
  inverse   : Bool := false
  fgKind    : Nat  := 0
  bgKind    : Nat  := 0
  fgLight   : Bool := false
  bgLight   : Bool := false
  fg        : Int  := 0
  bg        : Int  := 0
deriving DecidableEq, Repr, Inhabited

/-- ZERO_ATTR. -/
def zeroAttr : Attrs := {}

/-- Modelled from the spec: RGB_32 packs r,g,b into one value. -/
def rgb32 (r g b : Int) : Int := r * 65536 + g * 256 + b

/-- One character slot: a glyph (its UTF-8 bytes; empty list is the blank
glyph GLYPH("")) plus the attributes stamped at write time. -/
structure Cell where
  glyph : List Nat := []
  attrs : Attrs := {}
deriving DecidableEq, Repr, Inhabited

/-- One row of the grid plus its dirty flag (struct Line). -/
structure Line where
  cells : List Cell := []
  dirty : Bool := false
deriving DecidableEq, Repr, Inhabited

/-- Line::clear_cells: every existing cell is overwritten with a blank
glyph carrying `attrs`, then the row is resized to `width` with the same
blank fill. -/
def Line.clear_cells (l : Line) (width : Nat) (attrs : Attrs) : Line :=
  { l with cells := resizeTo (l.cells.map (fun _ => { glyph := [], attrs := attrs })) width { glyph := [], attrs := attrs } }

/-- Line::new_by_donation: the donated line keeps its identity (and dirty
flag) and is cleared to `width` blank cells. -/
def Line.new_by_donation (l : Line) (width : Nat) (attrs : Attrs) : Line :=
  l.clear_cells width attrs

/-- Line::Line(width, attrs). -/
def mkLine (width : Nat) (attrs : Attrs) : Line :=
  Line.clear_cells {} width attrs

/-- struct Screen: deque of lines, dimensions, 1-based clamped cursor,
saved cursor+attrs, scroll region (0 meaning unset) and the scrollback
row count.  The C++ `attrs` member is a reference to the owning Term's
current attributes; the embedding passes those in as an argument to each
operation that reads or writes them. -/
structure Screen where
  lines           : List Line := []
  width           : Nat := 0
  height          : Nat := 0
  cursor_row      : Int := 1
  cursor_col      : Int := 1
  cursor_row_save : Int := 1
  cursor_col_save : Int := 1
  attrs_save      : Attrs := {}
  cursor_saved    : Bool := false
  scroll_t        : Int := 0
  scroll_b        : Int := 0
  scrollback      : Nat := 0
deriving DecidableEq, Repr, Inhabited

def Screen.set_cursor (s : Screen) (row col : Int) : Screen :=
  { s with cursor_row := limitI row 1 s.height,
           cursor_col := limitI col 1 s.width }

def Screen.move_cursor (s : Screen) (rows cols : Int) : Screen :=
  s.set_cursor (s.cursor_row + rows) (s.cursor_col + cols)

def Screen.save_cursor (s : Screen) (attrs : Attrs) : Screen :=
  { s with cursor_row_save := s.cursor_row,
           cursor_col_save := s.cursor_col,
           attrs_save := attrs,
           cursor_saved := true }

/-- Screen::restore_cursor also writes the saved attributes back through
the shared attrs reference; the new attribute value is returned. -/
def Screen.restore_cursor (s : Screen) : Screen × Attrs :=
  ({ s with cursor_row := s.cursor_row_save,
            cursor_col := s.cursor_col_save,
            cursor_saved := false },
   s.attrs_save)

def Screen.make_dirty (s : Screen) : Screen :=
  { s with lines := s.lines.map (fun l => { l with dirty := true }) }

def Screen.set_scroll (s : Screen) (top bottom : Int) : Screen :=
  { s with scroll_t := limitI top 0 s.height,
           scroll_b := limitI bottom 0 s.height }

def Screen.sctop (s : Screen) : Int :=
  if s.scroll_t ≠ 0 then s.scroll_t else 1

def Screen.scbottom (s : Screen) : Int :=
  if s.scroll_b ≠ 0 then s.scroll_b else (s.height : Int)

/-- Screen::set.  Glyph width (yed_get_glyph_width) is modelled from the
spec as a function of the glyph's bytes; the claims below do not depend on
which glyphs are double-width and all concretely evaluated glyphs are
single-width. -/
def glyphWidth (_g : List Nat) : Nat := 1

/-- The attribute-stamping loop of Screen::set: for i below the glyph
width, stop once col+i passes the screen width, else stamp attrs. -/
def stampAttrs (cells : List Cell) (col : Int) (w : Nat) (gw : Nat) (attrs : Attrs) : List Cell :=
  (List.range gw).foldl
    (fun cs i => if col + (i : Int) > (w : Int) then cs
                 else modifyAt cs (col - 1 + (i : Int)).toNat (fun c => { c with attrs := attrs }))
    cells

def Screen.set (s : Screen) (row col : Int) (g : List Nat) (attrs : Attrs) : Screen :=
  if row > (s.height : Int) ∨ col > (s.width : Int) then s
  else
    { s with lines := (modifyAt s.lines ((s.scrollback : Int) + row - 1).toNat
        (fun line =>
          let cells1 := modifyAt line.cells (col - 1).toNat (fun c => { c with glyph := g })
          { line with cells := stampAttrs cells1 col s.width (glyphWidth g) attrs,
                      dirty := true })) }

def Screen.set_current_cell (s : Screen) (g : List Nat) (attrs : Attrs) : Screen :=
  s.set s.cursor_row s.cursor_col g attrs

/-- Screen::insert: insert the new cell at col-1 and drop the row's last
cell.  The source does not mark the row dirty here. -/
def Screen.insert (s : Screen) (row col : Int) (g : List Nat) (attrs : Attrs) : Screen :=
  { s with lines := (modifyAt s.lines ((s.scrollback : Int) + row - 1).toNat
      (fun line => { line with cells := (line.cells.insertIdx (col - 1).toNat { glyph := g, attrs := attrs }).dropLast })) }

def Screen.del_cell (s : Screen) (row col : Int) (attrs : Attrs) : Screen :=
  { s with lines := (modifyAt s.lines ((s.scrollback : Int) + row - 1).toNat
      (fun line =>
        let blank : Cell := { glyph := [], attrs := attrs }
        { line with cells := line.cells.eraseIdx (col - 1).toNat ++ [blank], dirty := true })) }

def Screen.clear_row_abs (s : Screen) (row : Int) (attrs : Attrs) : Screen :=
  { s with lines := (modifyAt s.lines (row - 1).toNat
      (fun line => { line.clear_cells s.width attrs with dirty := true })) }

def Screen.clear_row (s : Screen) (row : Int) (attrs : Attrs) : Screen :=
  s.clear_row_abs ((s.scrollback : Int) + row) attrs

/-- The dirty-marking loop shared by the scroll/insert/delete-line
operations: every line of the active scroll-region band is marked. -/
def Screen.mark_band_dirty (s : Screen) : Screen :=
  { s with lines :=
      ((upTo s.sctop s.scbottom).foldl
        (fun ls i => modifyAt ls ((s.scrollback : Int) + i - 1).toNat (fun l => { l with dirty := true }))
        s.lines) }

/-- Screen::scroll_up (the yed-buffer mirroring calls, which only echo the
same deque edits into the host's render buffer, are not modelled). -/
def Screen.scroll_up (s : Screen) (attrs : Attrs) : Screen :=
  let del_row : Int := if s.scroll_t ≠ 0 then (s.scrollback : Int) + s.scroll_t else 1
  let new_row : Int := (s.scrollback : Int) + s.scbottom
  let donated := (s.lines.getD (del_row - 1).toNat default).new_by_donation s.width attrs
  let lines1 := s.lines.eraseIdx (del_row - 1).toNat
  let lines2 := if new_row > (lines1.length : Int) then lines1 ++ [donated]
                else lines1.insertIdx (new_row - 1).toNat donated
  Screen.mark_band_dirty { s with lines := lines2 }

def Screen.scroll_down (s : Screen) (attrs : Attrs) : Screen :=
  let del_row : Int := (s.scrollback : Int) + s.scbottom
  let new_row : Int := (s.scrollback : Int) + (if s.scroll_t ≠ 0 then s.scroll_t else 1)
  let lines1 := s.lines.eraseIdx (del_row - 1).toNat
  let lines2 := lines1.insertIdx (new_row - 1).toNat (mkLine s.width attrs)
  Screen.mark_band_dirty { s with lines := lines2 }

def Screen.insert_line (s : Screen) (row : Int) (attrs : Attrs) : Screen :=
  let del_row : Int := (s.scrollback : Int) + s.scbottom
  let new_row : Int := (s.scrollback : Int) + row
  let lines1 := s.lines.eraseIdx (del_row - 1).toNat
  let lines2 := if new_row > (lines1.length : Int) then lines1 ++ [mkLine s.width attrs]
                else lines1.insertIdx (new_row - 1).toNat (mkLine s.width attrs)
  Screen.mark_band_dirty { s with lines := lines2 }

/-- Screen::delete_line marks the band dirty only when a region is set. -/
def Screen.delete_line (s : Screen) (row : Int) (attrs : Attrs) : Screen :=
  let del_row : Int := (s.scrollback : Int) + row
  let new_row : Int := (s.scrollback : Int) + s.scbottom
  let lines1 := s.lines.eraseIdx (del_row - 1).toNat
  let lines2 := lines1.insertIdx (new_row - 1).toNat (mkLine s.width attrs)
  let s2 := { s with lines := lines2 }
  if s.scroll_t ≠ 0 ∨ s.scroll_b ≠ 0 then Screen.mark_band_dirty s2 else s2

/-- The shrink loop of Screen::set_dimensions: while more lines than
needed, evict from the tail when the tail line starts blank, else from the
head.  Fuel bounds the loop; the callers pass the current line count,
which always suffices since each pass removes one line. -/
def evictLoop (fuel : Nat) (lines : List Line) (num : Nat) : List Line :=
  if lines.length > num then
    match fuel with
    | 0 => lines
    | f+1 =>
      if ((lines.getLastD default).cells.headD default).glyph.headD 0 = 0 then
        evictLoop f (lines.eraseIdx (lines.length - 1)) num
      else
        evictLoop f (lines.eraseIdx 0) num
  else lines

def Screen.set_dimensions (s : Screen) (width height : Nat) (attrs : Attrs) : Screen :=
  let max_width := s.lines.foldl (fun m l => max m l.cells.length) width
  let num_lines := height + s.scrollback
  let lines1 :=
    if num_lines > s.lines.length then
      s.lines ++ List.replicate (num_lines - s.lines.length) (mkLine max_width attrs)
    else
      evictLoop s.lines.length s.lines num_lines
  let lines2 :=
    if max_width > s.width then
      lines1.map (fun l => { l with cells := resizeTo l.cells max_width { glyph := [], attrs := attrs } })
    else lines1
  let lines3 :=
    (upTo (max 1 ((s.scrollback : Int) - (height : Int))) ((s.scrollback : Int) + (height : Int) - 1)).foldl
      (fun ls r => modifyAt ls (r - 1).toNat (fun l => { l with dirty := true })) lines2
  { s with lines := lines3,
           width := width,
           height := height,
           scroll_t := limitI s.scroll_t 0 height,
           scroll_b := limitI s.scroll_b 0 height,
           cursor_row := limitI s.cursor_row 1 height,
           cursor_col := limitI s.cursor_col 1 width }

end DataModel

section Decoders

/-- Result record of the CSI constructor. -/
structure CSIr where
  args     : List Int := []
  command  : Nat := 0
  len      : Nat := 0
  complete : Bool := false
  mode     : Nat := 0
deriving DecidableEq, Repr, Inhabited

/-- IS_DELIM of the CSI constructor. -/
def csiDelim (c : Nat) : Bool :=
  c = 59 || c = 58 || c = 63 || c = 32 || c = 62 || c = 33 || c = 37

/-- IS_FINAL of the CSI constructor: bytes 0x40 to 0x7E. -/
def csiFinal (c : Nat) : Bool := 64 ≤ c && c ≤ 126

/-- One step machine for the CSI constructor, scanning the bytes after
the ESC-bracket introducer.  Phase 0 is the leading mode-marker and
delimiter loop, phase 1 the outer-loop condition checks, phase 2 the digit
run of one parameter, phase 3 the trailing delimiter loop.  Invariant: the
head of `bs` is the current character, it is nonzero, and `len` counts the
bytes scanned so far including it; hitting a zero byte (or the end of the
window) reproduces the NEXT macro's goto out, which leaves `len` at the
number of bytes before the terminator and, from inside a digit run, skips
the pending argument push.  Fuel only bounds the recursion; callers pass
enough for the whole window. -/
def csiScan (fuel : Nat) (phase : Nat) (bs : List Nat) (mode : Nat)
    (args : List Int) (sarg : List Nat) (len : Nat) : CSIr :=
  match fuel with
  | 0 => { args := args, mode := mode, len := len }
  | f+1 =>
    match bs with
    | [] => { args := args, mode := mode, len := len }
    | c :: rest =>
      if phase = 0 then
        if csiDelim c then
          let mode' := if c = 33 ∨ c = 63 ∨ c = 62 then c else mode
          let args' := if c = 59 then args ++ [0] else args
          match rest with
          | [] => { args := args', mode := mode', len := len }
          | c2 :: _ =>
            if c2 = 0 then { args := args', mode := mode', len := len }
            else csiScan f 0 rest mode' args' [] (len + 1)
        else csiScan f 1 bs mode args [] len
      else if phase = 1 then
        if csiFinal c then
          { args := args, mode := mode, len := len, command := c, complete := true }
        else if c = 27 then { args := args, mode := mode, len := len - 1 }
        else if isDigitB c then
          match rest with
          | [] => { args := args, mode := mode, len := len }
          | c2 :: _ =>
            if c2 = 0 then { args := args, mode := mode, len := len }
            else csiScan f 2 rest mode args [c] (len + 1)
        else if csiDelim c then
          -- Unreachable from the constructor's control flow: delimiters are
          -- always consumed before the outer-loop condition is re-checked.
          -- The source would push an uninitialised sscanf target here;
          -- modelled as the value of the empty digit string.
          csiScan f 3 bs mode (args ++ [digitsVal []]) [] len
        else { args := args, mode := mode, len := len }
      else if phase = 2 then
        if isDigitB c then
          match rest with
          | [] => { args := args, mode := mode, len := len }
          | c2 :: _ =>
            if c2 = 0 then { args := args, mode := mode, len := len }
            else csiScan f 2 rest mode args (sarg ++ [c]) (len + 1)
        else csiScan f 3 bs mode (args ++ [digitsVal sarg]) [] len
      else
        if csiDelim c then
          match rest with
          | [] => { args := args, mode := mode, len := len }
          | c2 :: _ =>
            if c2 = 0 then { args := args, mode := mode, len := len }
            else csiScan f 3 rest mode args [] (len + 1)
        else csiScan f 1 bs mode args [] len

/-- CSI::CSI over the byte window following ESC-bracket. -/
def parseCSI (bs : List Nat) : CSIr :=
  match bs with
  | [] => {}
  | c :: _ => if c = 0 then {} else csiScan (3 * bs.length + 9) 0 bs 0 [] [] 1

/-- Result record of the OSC constructor. -/
structure OSCr where
  command  : Int := 0
  len      : Nat := 0
  arg      : List Nat := []
  complete : Bool := false
deriving DecidableEq, Repr, Inhabited

/-- One step machine for the OSC constructor.  Phase 0 collects the
leading decimal command digits (a goto out from inside that loop skips the
sscanf, leaving the command 0); phase 1 is the argument loop running to a
BEL or an ESC, where a following backslash completes the sequence, any
other following byte un-counts itself from the length and leaves the
sequence incomplete.  The dead in-loop ESC branch of the source (its guard
already excludes ESC) is not reproduced. -/
def oscScan (fuel : Nat) (phase : Nat) (bs : List Nat) (command : Int)
    (scmd : List Nat) (arg : List Nat) (len : Nat) : OSCr :=
  match fuel with
  | 0 => { command := command, arg := arg, len := len }
  | f+1 =>
    match bs with
    | [] => { command := command, arg := arg, len := len }
    | c :: rest =>
      if phase = 0 then
        if isDigitB c then
          match rest with
          | [] => { command := command, arg := arg, len := len }
          | c2 :: _ =>
            if c2 = 0 then { command := command, arg := arg, len := len }
            else oscScan f 0 rest command (scmd ++ [c]) arg (len + 1)
        else
          let cmd := digitsVal scmd
          if c ≠ 59 ∧ c ≠ 7 then { command := cmd, arg := arg, len := len }
          else oscScan f 1 bs cmd [] arg len
      else
        if c ≠ 7 ∧ c ≠ 27 then
          match rest with
          | [] => { command := command, arg := arg ++ [c], len := len }
          | c2 :: _ =>
            if c2 = 0 then { command := command, arg := arg ++ [c], len := len }
            else oscScan f 1 rest command [] (arg ++ [c]) (len + 1)
        else if c = 7 then
          { command := command, arg := arg, len := len, complete := true }
        else
          match rest with
          | [] => { command := command, arg := arg, len := len }
          | c2 :: _ =>
            if c2 = 0 then { command := command, arg := arg, len := len }
            else if c2 = 92 then
              { command := command, arg := arg, len := len + 1, complete := true }
            else { command := command, arg := arg, len := len + 1 - 1 }

/-- OSC::OSC over the byte window following ESC-rbracket. -/
def parseOSC (bs : List Nat) : OSCr :=
  match bs with
  | [] => {}
  | c :: _ => if c = 0 then {} else oscScan (2 * bs.length + 9) 0 bs 0 [] [] 1

/-- Result record of the DCS constructor. -/
structure DCSr where
  len      : Nat := 0
  complete : Bool := false
  str      : List Nat := []
deriving DecidableEq, Repr, Inhabited

/-- Step machine for the DCS constructor: capture everything up to an
ESC; a following backslash completes, any other following byte un-counts
itself and stops incomplete. -/
def dcsScan (fuel : Nat) (bs : List Nat) (acc : List Nat) (len : Nat) : DCSr :=
  match fuel with
  | 0 => { str := acc, len := len }
  | f+1 =>
    match bs with
    | [] => { str := acc, len := len }
    | c :: rest =>
      if c = 27 then
        match rest with
        | [] => { str := acc, len := len }
        | c2 :: _ =>
          if c2 = 0 then { str := acc, len := len }
          else if c2 = 92 then { str := acc, len := len + 1, complete := true }
          else { str := acc, len := len + 1 - 1 }
      else
        match rest with
        | [] => { str := acc ++ [c], len := len }
        | c2 :: _ =>
          if c2 = 0 then { str := acc ++ [c], len := len }
          else dcsScan f rest (acc ++ [c]) (len + 1)

/-- DCS::DCS over the byte window following ESC-P or ESC-k. -/
def parseDCS (bs : List Nat) : DCSr :=
  match bs with
  | [] => {}
  | c :: _ => if c = 0 then {} else dcsScan (bs.length + 9) bs [] 1

end Decoders

section TermModel

/-- The emulation-relevant mutable state of struct Term: both screens and
the active-screen selector, the shared current attributes, the key/wrap
mode bits, the title, the bytes written back to the pty master
(`output`), and the cross-call leftover state of Term::update (the three
static locals; a single terminal is modelled).  `ub` is set when the
source would perform an out-of-bounds vector read (undefined behavior),
after which the embedding stops interpreting. -/
structure TermState where
  main_screen     : Screen := {}
  alt_screen      : Screen := {}
  usingAlt        : Bool := false
  current_attrs   : Attrs := {}
  app_keys        : Bool := false
  auto_wrap       : Bool := true
  wrap_next       : Bool := false
  title           : List Nat := []
  output          : List Nat := []
  incomplete_csi  : List Nat := []
  incomplete_esc  : Bool := false
  incomplete_utf8 : List Nat := []
  ub              : Bool := false
deriving DecidableEq, Repr, Inhabited

/-- Term::screen(): the active screen. -/
def TermState.scr (t : TermState) : Screen :=
  if t.usingAlt then t.alt_screen else t.main_screen

/-- Store back into the active screen. -/
def TermState.withScr (t : TermState) (s : Screen) : TermState :=
  if t.usingAlt then { t with alt_screen := s } else { t with main_screen := s }

def TermState.row (t : TermState) : Int := t.scr.cursor_row
def TermState.col (t : TermState) : Int := t.scr.cursor_col
def TermState.height (t : TermState) : Nat := t.scr.height
def TermState.width (t : TermState) : Nat := t.scr.width
def TermState.sctop (t : TermState) : Int := t.scr.sctop
def TermState.scbottom (t : TermState) : Int := t.scr.scbottom

/-- Term::move_cursor with its cancel_wrap flag. -/
def TermState.move_cursor (t : TermState) (rows cols : Int) (cancel : Bool) : TermState :=
  let t1 := t.withScr (t.scr.move_cursor rows cols)
  if cancel then { t1 with wrap_next := false } else t1

/-- Term::set_cursor always cancels a pending deferred wrap. -/
def TermState.set_cursor (t : TermState) (row col : Int) : TermState :=
  { t.withScr (t.scr.set_cursor row col) with wrap_next := false }

def TermState.save_cursor (t : TermState) : TermState :=
  t.withScr (t.scr.save_cursor t.current_attrs)

def TermState.restore_cursor (t : TermState) : TermState :=
  let p := t.scr.restore_cursor
  { t.withScr p.1 with current_attrs := p.2 }

def TermState.set_scroll (t : TermState) (top bottom : Int) : TermState :=
  t.withScr (t.scr.set_scroll top bottom)

def TermState.clear_row (t : TermState) (row : Int) : TermState :=
  t.withScr (t.scr.clear_row row t.current_attrs)

def TermState.clear_page (t : TermState) : TermState :=
  (upTo 1 (t.height : Int)).foldl (fun u r => u.clear_row r) t

def TermState.insert_cell (t : TermState) (row col : Int) (g : List Nat) : TermState :=
  t.withScr (t.scr.insert row col g t.current_attrs)

def TermState.set_cell (t : TermState) (row col : Int) (g : List Nat) : TermState :=
  t.withScr (t.scr.set row col g t.current_attrs)

def TermState.set_current_cell (t : TermState) (g : List Nat) : TermState :=
  t.withScr (t.scr.set_current_cell g t.current_attrs)

def TermState.delete_cell (t : TermState) (row col : Int) : TermState :=
  t.withScr (t.scr.del_cell row col t.current_attrs)

def TermState.delete_current_cell (t : TermState) : TermState :=
  t.delete_cell t.row t.col

def TermState.scroll_up (t : TermState) : TermState :=
  t.withScr (t.scr.scroll_up t.current_attrs)

def TermState.scroll_down (t : TermState) : TermState :=
  t.withScr (t.scr.scroll_down t.current_attrs)

def TermState.insert_line (t : TermState) (row : Int) : TermState :=
  t.withScr (t.scr.insert_line row t.current_attrs)

def TermState.delete_line (t : TermState) (row : Int) : TermState :=
  t.withScr (t.scr.delete_line row t.current_attrs)

/-- Term::reset (DEC private mode 3 and DECALN use this). -/
def TermState.reset (t : TermState) : TermState :=
  let t1 := { t with current_attrs := zeroAttr, app_keys := false,
                     auto_wrap := true, wrap_next := false }
  ((t1.set_scroll 0 0).set_cursor 1 1).clear_page

/-- Append bytes written to the pty master. -/
def termWrite (t : TermState) (bytes : List Nat) : TermState :=
  { t with output := t.output ++ bytes }

end TermModel

section Dispatch

/-- The SGR argument loop of Term::execute_CSI case m.  Arguments are
consumed sequentially; the extended-colour codes 38 and 48 read
`csi.args[0]` after each SHIFT without checking emptiness, which on an
exhausted argument vector is an out-of-bounds read: those reads are
modelled by returning `none`.  An unrecognised code jumps to the
unhandled label, abandoning the remaining arguments. -/
def sgrRun (args : List Int) (a : Attrs) : Option Attrs :=
  match args with
  | [] => some a
  | cmd :: rest =>
    if cmd = 0 then sgrRun rest {}
    else if cmd = 1 then sgrRun rest { a with bold := true }
    else if cmd = 4 then sgrRun rest { a with underline := true }
    else if cmd = 7 then sgrRun rest { a with inverse := true }
    else if cmd = 22 then sgrRun rest { a with bold := false }
    else if cmd = 24 then sgrRun rest { a with underline := false }
    else if cmd = 27 then sgrRun rest { a with inverse := false }
    else if cmd = 2 ∨ cmd = 3 ∨ cmd = 5 ∨ cmd = 6 ∨ cmd = 8 ∨ cmd = 9 ∨
            cmd = 23 ∨ cmd = 25 ∨ cmd = 26 ∨ cmd = 28 ∨ cmd = 29 then sgrRun rest a
    else if 30 ≤ cmd ∧ cmd ≤ 37 then
      sgrRun rest { a with fgLight := false, fgKind := 1, fg := cmd }
    else if cmd = 38 then
      match rest with
      | [] => none
      | which :: rest2 =>
        if which = 2 then
          match rest2 with
          | [] => none
          | r :: rest3 =>
            match rest3 with
            | [] => none
            | g :: rest4 =>
              match rest4 with
              | [] => none
              | b :: rest5 =>
                sgrRun rest5 { a with fgKind := 3, fg := rgb32 r g b,
                                      fgLight := false, bgLight := false }
        else if which = 5 then
          match rest2 with
          | [] => none
          | n :: rest3 =>
            sgrRun rest3 { a with fgKind := 2, fg := n,
                                  fgLight := false, bgLight := false }
        else sgrRun rest2 a
    else if cmd = 39 then sgrRun rest { a with fgKind := 0, fg := 0 }
    else if 40 ≤ cmd ∧ cmd ≤ 47 then
      sgrRun rest { a with bgLight := false, bgKind := 1, bg := cmd - 10 }
    else if cmd = 48 then
      match rest with
      | [] => none
      | which :: rest2 =>
        if which = 2 then
          match rest2 with
          | [] => none
          | r :: rest3 =>
            match rest3 with
            | [] => none
            | g :: rest4 =>
              match rest4 with
              | [] => none
              | b :: rest5 =>
                sgrRun rest5 { a with bgKind := 3, bg := rgb32 r g b,
                                      fgLight := false, bgLight := false }
        else if which = 5 then
          match rest2 with
          | [] => none
          | n :: rest3 =>
            sgrRun rest3 { a with bgKind := 2, bg := n,
                                  fgLight := false, bgLight := false }
        else sgrRun rest2 a
    else if cmd = 49 then sgrRun rest { a with bgKind := 0, bg := 0 }
    else if 90 ≤ cmd ∧ cmd ≤ 97 then
      sgrRun rest { a with fgKind := 1, fgLight := true, fg := cmd - 60 }
    else if 100 ≤ cmd ∧ cmd ≤ 107 then
      sgrRun rest { a with bgKind := 1, bgLight := true, bg := cmd - 70 }
    else some a

/-- First argument of a CSI, or the given default when absent. -/
def argOr (csi : CSIr) (dflt : Int) : Int :=
  match csi.args with
  | [] => dflt
  | a :: _ => a

/-- The column loop of the J command with argument 1:
for (int col = 1; col >= cursor column; col += 1) blank the cell.
The loop counter is a C int; past INT_MAX it wraps (signed overflow,
formally undefined; the observed wraparound is modelled), so a fuel of
2^32 always reaches the loop's exit. -/
def csiJ1colLoop (fuel : Nat) (col : Int) (t : TermState) : TermState :=
  if col ≥ t.col then
    match fuel with
    | 0 => t
    | f+1 => csiJ1colLoop f (wrap32 (col + 1)) (t.set_cell t.row col [])
  else t

/-- Term::execute_CSI case J (erase in display). -/
def execJ (t : TermState) (csi : CSIr) : TermState :=
  let code : Int := match csi.args with | [] => 0 | a :: _ => a
  if code = 0 then
    let t1 := (downFrom (t.height : Int) (t.row + 1)).foldl (fun u r => u.clear_row r) t
    (downFrom (t1.width : Int) t1.col).foldl (fun u c => u.set_cell u.row c []) t1
  else if code = 1 then
    let t1 := (upTo 1 (t.row - 1)).foldl (fun u r => u.clear_row r) t
    csiJ1colLoop (2 ^ 32) 1 t1
  else if code = 2 then t.clear_page
  else t

/-- Term::execute_CSI case K (erase in line). -/
def execK (t : TermState) (csi : CSIr) : TermState :=
  let code : Int := match csi.args with | [] => 0 | a :: _ => a
  if code = 0 then
    (downFrom (t.width : Int) t.col).foldl (fun u c => u.set_cell u.row c []) t
  else if code = 1 then
    (upTo 1 t.col).foldl (fun u c => u.set_cell u.row c []) t
  else if code = 2 then t.clear_row t.row
  else t

/-- DEC private mode enable. -/
def execPrivH (t : TermState) (csi : CSIr) : TermState :=
  let val := argOr csi 1
  if val = 1 then { t with app_keys := true }
  else if val = 3 then t.reset
  else if val = 7 then { t with auto_wrap := true }
  else if val = 12 ∨ val = 25 then t
  else if val = 1049 then
    let t1 := { t with usingAlt := true }
    let t2 := (t1.set_cursor 1 1).clear_page
    t2.withScr t2.scr.make_dirty
  else t

/-- DEC private mode disable. -/
def execPrivL (t : TermState) (csi : CSIr) : TermState :=
  let val := argOr csi 1
  if val = 1 then { t with app_keys := false }
  else if val = 3 then t.reset
  else if val = 7 then { t with auto_wrap := false }
  else if val = 12 ∨ val = 25 then t
  else if val = 1049 then
    let t1 := { t with usingAlt := false }
    t1.withScr t1.scr.make_dirty
  else t

/-- Term::execute_CSI, dispatching on (mode marker, final byte).  The
mode values are the marker characters themselves (33 reset-request,
63 private, 62 xterm); unrecognised pairs fall through with no state
change.  Byte values: 64 at-sign, 65 A ... 72 H, 74 J, 75 K, 76 L, 77 M,
80 P, 83 S, 84 T, 88 X, 99 c, 100 d, 102 f, 104 h, 108 l, 109 m, 110 n,
112 p, 114 r, 116 t. -/
def execCSI (t : TermState) (csi : CSIr) : TermState :=
  if csi.mode = 0 ∧ csi.command = 64 then
    let save := t.current_attrs
    let t1 := { t with current_attrs := zeroAttr }
    let t2 := applyN (argOr csi 1).toNat (fun u => u.insert_cell u.row u.col [32]) t1
    { t2 with current_attrs := save }
  else if csi.mode = 0 ∧ csi.command = 65 then t.move_cursor (-(argOr csi 1)) 0 true
  else if csi.mode = 0 ∧ csi.command = 66 then t.move_cursor (argOr csi 1) 0 true
  else if csi.mode = 0 ∧ csi.command = 99 then termWrite t [27, 91, 63, 54, 99]
  else if csi.mode = 62 ∧ csi.command = 99 then
    termWrite t [27, 91, 62, 48, 59, 48, 59, 48, 99]
  else if csi.mode = 0 ∧ csi.command = 67 then t.move_cursor 0 (argOr csi 1) true
  else if csi.mode = 0 ∧ csi.command = 68 then t.move_cursor 0 (-(argOr csi 1)) true
  else if csi.mode = 0 ∧ csi.command = 69 then
    let t1 := t.move_cursor (argOr csi 1) 0 true
    t1.set_cursor t1.row 1
  else if csi.mode = 0 ∧ csi.command = 70 then
    let t1 := t.move_cursor (-(argOr csi 1)) 0 true
    t1.set_cursor t1.row 1
  else if csi.mode = 0 ∧ csi.command = 100 then t.set_cursor (argOr csi 1) t.col
  else if csi.mode = 0 ∧ (csi.command = 102 ∨ csi.command = 72) then
    match csi.args with
    | [] => t.set_cursor 1 1
    | [a] => t.set_cursor a 1
    | [a, b] => t.set_cursor a b
    | _ => t
  else if csi.mode = 0 ∧ csi.command = 71 then t.set_cursor t.row (argOr csi 1)
  else if csi.mode = 0 ∧ csi.command = 74 then execJ t csi
  else if csi.mode = 0 ∧ csi.command = 75 then execK t csi
  else if csi.mode = 0 ∧ csi.command = 76 then
    applyN (argOr csi 1).toNat (fun u => u.insert_line u.row) t
  else if csi.mode = 0 ∧ csi.command = 77 then
    applyN (argOr csi 1).toNat (fun u => u.delete_line u.row) t
  else if csi.mode = 0 ∧ csi.command = 80 then
    applyN (argOr csi 1).toNat (fun u => u.delete_current_cell) t
  else if csi.mode = 0 ∧ (csi.command = 108 ∨ csi.command = 104) then t
  else if csi.mode = 63 ∧ csi.command = 104 then execPrivH t csi
  else if csi.mode = 63 ∧ csi.command = 108 then execPrivL t csi
  else if csi.mode = 0 ∧ csi.command = 109 then
    let args0 := if csi.args = [] then [0] else csi.args
    match sgrRun args0 t.current_attrs with
    | some a => { t with current_attrs := a }
    | none => { t with ub := true }
  else if csi.mode = 62 ∧ csi.command = 109 then t
  else if csi.mode = 0 ∧ csi.command = 110 then
    let val := argOr csi 0
    if val = 53 then termWrite t [27, 91, 48, 110]
    else if val = 54 then
      termWrite t ([27, 91] ++ intDec t.row ++ [59] ++ intDec t.col ++ [82])
    else t
  else if csi.mode = 33 ∧ csi.command = 112 then
    let t1 := { t with current_attrs := zeroAttr }
    let t2 := ((t1.set_cursor 1 1).set_scroll 0 0).clear_page
    let t3 := { t2 with app_keys := false, usingAlt := false }
    { t3 with main_screen := t3.main_screen.make_dirty }
  else if csi.mode = 0 ∧ csi.command = 114 then
    let t1 := t.set_cursor 1 1
    match csi.args with
    | [] => t1.set_scroll 0 0
    | [a] => t1.set_scroll a 0
    | [a, b] => if b ≥ a then t1.set_scroll a b else t1
    | _ => t1
  else if csi.mode = 0 ∧ csi.command = 83 then
    applyN (argOr csi 1).toNat (fun u => u.scroll_up) t
  else if csi.mode = 0 ∧ csi.command = 84 then
    applyN (argOr csi 1).toNat (fun u => u.scroll_down) t
  else if (csi.mode = 0 ∨ csi.mode = 62) ∧ csi.command = 116 then t
  else if csi.mode = 0 ∧ csi.command = 88 then
    (List.range (argOr csi 1).toNat).foldl
      (fun u i => u.set_cell u.row (u.col + (i : Int)) []) t
  else t

/-- ASCII bytes of a literal string. -/
def strBytes (s : String) : List Nat := s.data.map Char.toNat

/-- Term::execute_OSC.  OSC 52 calls printf on the host's stdout, not the
pty; it has no effect on the modelled state. -/
def execOSC (t : TermState) (osc : OSCr) : TermState :=
  if osc.command = 0 then { t with title := osc.arg }
  else if osc.command = 4 ∨ osc.command = 10 ∨ osc.command = 11 then
    if osc.arg = [63] then
      termWrite t ([27, 93] ++ intDec osc.command ++
        strBytes ";rgb:255255/255255/255255" ++ [7])
    else t
  else t

end Dispatch

section DecodeLoop

/-- Modelled from the spec: glyph boundaries are decided by UTF-8 length
(yed_get_glyph_len), i.e. the standard length implied by the leading byte,
1 for continuation or invalid leading bytes. -/
def glyphLen (b : Nat) : Nat :=
  if b < 128 then 1
  else if b < 192 then 1
  else if b < 224 then 2
  else if b < 240 then 3
  else if b < 248 then 4
  else 1

/-- Modelled from the spec: the host-configured tab width
(yed_get_tab_width); the value is host configuration, fixed here. -/
def tabWidth : Nat := 8

/-- The glyph-placement block of Term::update (the code at the put_utf8
label after the length check): a pending deferred wrap is resolved first
- scroll up at the scroll-region bottom, else move down, then home to
column 1 - and then the glyph is stamped at the cursor; writing into the
last column with auto-wrap on arms the deferred wrap instead of moving. -/
def putGlyphT (t : TermState) (g : List Nat) : TermState :=
  let t1 :=
    if t.wrap_next then
      let t2 :=
        if t.col = (t.width : Int) then
          let t3 := if t.row = t.scbottom then t.scroll_up else t.move_cursor 1 0 true
          t3.set_cursor t3.row 1
        else t
      { t2 with wrap_next := false }
    else t
  let t4 := t1.set_current_cell g
  if t4.col = (t4.width : Int) ∧ t4.auto_wrap = true then { t4 with wrap_next := true }
  else t4.move_cursor 0 (glyphWidth g : Int) false

/-- The horizontal-tab do-while loop of Term::update: write spaces and
advance until the column is a tab stop or the last column is reached.
Each pass advances the column, so a fuel of width+1 always suffices. -/
def tabLoopT (fuel : Nat) (t : TermState) : TermState :=
  match fuel with
  | 0 => t
  | f+1 =>
    if t.col = (t.width : Int) then t
    else
      let t1 := (t.set_current_cell [32]).move_cursor 0 1 true
      if t1.col % (tabWidth : Int) ≠ 1 then tabLoopT f t1 else t1

/-- The DECALN branch (ESC hash 8): reset, then fill every row with E
from the right edge down to the cursor column. -/
def decFillT (t : TermState) : TermState :=
  let t1 := t.reset
  (upTo 1 (t1.height : Int)).foldl
    (fun u r => (downFrom (u.width : Int) u.col).foldl (fun v c => v.set_cell r c [69]) u)
    t1

/-- One pass of the decode loop of Term::update over the accumulated
chunk.  `buff` is the byte vector with its appended 0 terminator, `lenT`
the traversal length (`buff` without the terminator), `i` the byte offset
of the current glyph, `last` the first byte of the previously processed
glyph, `countdown` the remaining glyph skips after a consumed escape
sequence, and `dectst`/`setcharset` the two pending single-character
escape states.  Each step advances by the glyph length, so fuel lenT+1
suffices.  Reads past the vector (possible while saving a deeply
truncated multi-byte glyph) yield unspecified bytes and are modelled
as 0. -/
def decodeStep (fuel : Nat) (buff : List Nat) (lenT i : Nat) (last : Nat)
    (countdown : Nat) (dectst setcharset : Bool) (t : TermState) : TermState :=
  match fuel with
  | 0 => t
  | f+1 =>
    if i ≥ lenT then t
    else
      let c := buff.getD i 0
      let gl := glyphLen c
      if countdown ≠ 0 then
        decodeStep f buff lenT (i + gl) last (countdown - 1) dectst setcharset t
      else if gl > 1 then
        if i + gl ≥ lenT then
          let saved := (List.range gl).map (fun k => buff.getD (i + k) 0)
          decodeStep f buff lenT (i + gl) c countdown dectst setcharset
            { t with incomplete_utf8 := t.incomplete_utf8 ++ saved }
        else
          let g := (List.range gl).map (fun k => buff.getD (i + k) 0)
          decodeStep f buff lenT (i + gl) c countdown dectst setcharset (putGlyphT t g)
      else if dectst then
        let t1 := if c = 56 then decFillT t else t
        decodeStep f buff lenT (i + gl) c countdown false setcharset t1
      else if setcharset then
        decodeStep f buff lenT (i + gl) c countdown dectst false t
      else if last = 27 then
        if c = 92 then
          decodeStep f buff lenT (i + gl) c countdown dectst setcharset t
        else if c = 91 then
          let csi := parseCSI (buff.drop (i + 1))
          if csi.complete then
            decodeStep f buff lenT (i + gl) c csi.len dectst setcharset (execCSI t csi)
          else if buff.getD (i + 1 + csi.len) 0 = 0 then
            let t1 := { t with incomplete_csi := [27, 91] ++ (buff.drop (i + 1)).take csi.len }
            decodeStep f buff lenT (i + gl) c t1.incomplete_csi.length dectst setcharset t1
          else
            decodeStep f buff lenT (i + gl) c t.incomplete_csi.length dectst setcharset t
        else if c = 93 then
          let osc := parseOSC (buff.drop (i + 1))
          if osc.complete then
            decodeStep f buff lenT (i + gl) c osc.len dectst setcharset (execOSC t osc)
          else if buff.getD (i + 1 + osc.len) 0 = 0 then
            let t1 := { t with incomplete_csi := [27, 93] ++ (buff.drop (i + 1)).take osc.len }
            decodeStep f buff lenT (i + gl) c t1.incomplete_csi.length dectst setcharset t1
          else
            decodeStep f buff lenT (i + gl) c t.incomplete_csi.length dectst setcharset t
        else if c = 107 ∨ c = 80 then
          let dcs := parseDCS (buff.drop (i + 1))
          if dcs.complete then
            decodeStep f buff lenT (i + gl) c dcs.len dectst setcharset t
          else
            let t1 := { t with incomplete_csi := [27, 80] ++ (buff.drop (i + 1)).take dcs.len }
            decodeStep f buff lenT (i + gl) c dcs.len dectst setcharset t1
        else if c = 35 then
          decodeStep f buff lenT (i + gl) c countdown true setcharset t
        else if c = 61 ∨ c = 62 then
          decodeStep f buff lenT (i + gl) c countdown dectst setcharset t
        else if c = 40 then
          decodeStep f buff lenT (i + gl) c countdown dectst true t
        else if c = 55 then
          decodeStep f buff lenT (i + gl) c countdown dectst setcharset t.save_cursor
        else if c = 56 then
          let t1 :=
            if t.scr.cursor_saved then t.restore_cursor
            else { t.set_cursor 1 1 with current_attrs := zeroAttr }
          decodeStep f buff lenT (i + gl) c countdown dectst setcharset t1
        else if c = 68 ∨ c = 69 then
          let t1 := if t.row = t.scbottom then t.scroll_up else t.move_cursor 1 0 true
          let t2 := if c = 69 then t1.set_cursor t1.row 1 else t1
          decodeStep f buff lenT (i + gl) c countdown dectst setcharset t2
        else if c = 77 then
          let t1 := if t.row = t.sctop then t.scroll_down else t.move_cursor (-1) 0 true
          decodeStep f buff lenT (i + gl) c countdown dectst setcharset t1
        else if c = 103 then
          decodeStep f buff lenT (i + gl) c countdown dectst setcharset t
        else
          let t1 := if isCntrlB c then t else putGlyphT t [c]
          decodeStep f buff lenT (i + gl) c countdown dectst setcharset t1
      else
        if c = 0 then
          decodeStep f buff lenT (i + gl) c countdown dectst setcharset t
        else if c = 27 then
          let t1 := if t.incomplete_csi ≠ [] then { t with incomplete_csi := [] } else t
          let t2 := if buff.getD (i + 1) 0 = 0 then { t1 with incomplete_csi := [27] } else t1
          decodeStep f buff lenT (i + gl) c countdown dectst setcharset t2
        else if c = 13 then
          decodeStep f buff lenT (i + gl) c countdown dectst setcharset (t.set_cursor t.row 1)
        else if c = 8 then
          decodeStep f buff lenT (i + gl) c countdown dectst setcharset (t.move_cursor 0 (-1) true)
        else if c = 12 ∨ c = 11 ∨ c = 10 then
          let t1 := if t.row = t.scbottom then t.scroll_up else t.move_cursor 1 0 true
          decodeStep f buff lenT (i + gl) c countdown dectst setcharset t1
        else if c = 9 then
          decodeStep f buff lenT (i + gl) c countdown dectst setcharset (tabLoopT (t.width + 1) t)
        else if c = 7 ∨ c = 15 then
          decodeStep f buff lenT (i + gl) c countdown dectst setcharset t
        else
          let t1 := if isCntrlB c then t else putGlyphT t [c]
          decodeStep f buff lenT (i + gl) c countdown dectst setcharset t1

/-- Term::update on one received chunk of bytes: prepend the pending
cross-call leftover (exactly one of lone ESC, incomplete CSI/OSC/DCS
text, partial UTF-8 tail), strip and remember a trailing lone ESC,
append the 0 terminator, then run the decode loop.  (The debug logging,
the delayed-update flag, the byte-queue locking and the final render into
the host buffer do not touch the emulation state and are not modelled.) -/
def termUpdate (t : TermState) (chunk : List Nat) : TermState :=
  let p0 :=
    if t.incomplete_esc then ([27] ++ chunk, { t with incomplete_esc := false })
    else if t.incomplete_csi ≠ [] then (t.incomplete_csi ++ chunk, { t with incomplete_csi := [] })
    else if t.incomplete_utf8 ≠ [] then (t.incomplete_utf8 ++ chunk, { t with incomplete_utf8 := [] })
    else (chunk, t)
  let p1 :=
    if p0.1.getLast? = some 27 then (p0.1.dropLast, { p0.2 with incomplete_esc := true })
    else p0
  let buff := p1.1 ++ [0]
  decodeStep (p1.1.length + 1) buff p1.1.length 0 0 0 false false p1.2

/-- A Screen as Screen::set_dimensions leaves a fresh one: sb+h blank
lines of width w (the state after Term construction and the initial
resize). -/
def initScreen (w h sb : Nat) : Screen :=
  { lines := List.replicate (sb + h) (mkLine w zeroAttr),
    width := w, height := h, scrollback := sb }

/-- A freshly constructed Term after its initial resize, with the given
dimensions and scrollback. -/
def initTerm (w h sb : Nat) : TermState :=
  { main_screen := initScreen w h sb, alt_screen := initScreen w h sb }

end DecodeLoop

section KeyEncoder

/-- The logical keys Term::keys distinguishes (yed key identifiers). -/
inductive TKey where
  | arrowUp | arrowDown | arrowRight | arrowLeft
  | delKey | homeKey | endKey
  | pageUp | pageDown | shiftTab
  | fn1 | fn2 | fn3 | fn4 | fn5 | fn6 | fn7 | fn8 | fn9 | fn10 | fn11 | fn12
  | menuKey
  | printable (c : Nat)
deriving DecidableEq, Repr

/-- Term::keys for one logical key: the first switch writes the two-byte
ESC-O (application keypad) or ESC-lbracket lead for the arrows and
Home/End only; the second switch writes the per-key bytes.  Keys not
named by either switch pass through as their low byte. -/
def keysEncode (app_keys : Bool) (k : TKey) : List Nat :=
  (match k with
   | .arrowUp | .arrowDown | .arrowRight | .arrowLeft | .homeKey | .endKey =>
     [27, if app_keys then 79 else 91]
   | _ => []) ++
  (match k with
   | .arrowUp => [65]
   | .arrowDown => [66]
   | .arrowRight => [67]
   | .arrowLeft => [68]
   | .delKey => [80]
   | .homeKey => [72]
   | .endKey => [70]
   | .pageUp => [27, 91, 53, 126]
   | .pageDown => [27, 91, 54, 126]
   | .shiftTab => [27, 91, 90]
   | .fn1 => [27, 79, 80]
   | .fn2 => [27, 79, 81]
   | .fn3 => [27, 79, 82]
   | .fn4 => [27, 79, 83]
   | .fn5 => [27, 91, 49, 53, 126]
   | .fn6 => [27, 91, 49, 55, 126]
   | .fn7 => [27, 91, 49, 56, 126]
   | .fn8 => [27, 91, 49, 57, 126]
   | .fn9 => [27, 91, 50, 48, 126]
   | .fn10 => [27, 91, 50, 49, 126]
   | .fn11 => [27, 91, 50, 51, 126]
   | .fn12 => [27, 91, 50, 52, 126]
   | .menuKey => [27, 91, 50, 57, 126]
   | .printable c => [c % 256])

end KeyEncoder

section HelperLemmas

theorem scr_withScr (t : TermState) (s : Screen) : (t.withScr s).scr = s := by
  unfold TermState.withScr TermState.scr
  by_cases h : t.usingAlt <;> simp [h]

theorem withScr_auto_wrap (t : TermState) (s : Screen) :
    (t.withScr s).auto_wrap = t.auto_wrap := by
  unfold TermState.withScr
  by_cases h : t.usingAlt <;> simp [h]

theorem withScr_wrap_next (t : TermState) (s : Screen) :
    (t.withScr s).wrap_next = t.wrap_next := by
  unfold TermState.withScr
  by_cases h : t.usingAlt <;> simp [h]

theorem set_fields (s : Screen) (r c : Int) (g : List Nat) (a : Attrs) :
    (s.set r c g a).cursor_row = s.cursor_row ∧
    (s.set r c g a).cursor_col = s.cursor_col ∧
    (s.set r c g a).width = s.width ∧
    (s.set r c g a).height = s.height ∧
    (s.set r c g a).scroll_t = s.scroll_t ∧
    (s.set r c g a).scroll_b = s.scroll_b ∧
    (s.set r c g a).scrollback = s.scrollback := by
  unfold Screen.set
  split <;> simp

theorem set_current_cell_row (t : TermState) (g : List Nat) :
    (t.set_current_cell g).row = t.row := by
  unfold TermState.set_current_cell TermState.row Screen.set_current_cell
  rw [scr_withScr]
  exact (set_fields _ _ _ _ _).1

theorem set_current_cell_col (t : TermState) (g : List Nat) :
    (t.set_current_cell g).col = t.col := by
  unfold TermState.set_current_cell TermState.col Screen.set_current_cell
  rw [scr_withScr]
  exact (set_fields _ _ _ _ _).2.1

theorem set_current_cell_width (t : TermState) (g : List Nat) :
    (t.set_current_cell g).width = t.width := by
  unfold TermState.set_current_cell TermState.width Screen.set_current_cell
  rw [scr_withScr]
  exact (set_fields _ _ _ _ _).2.2.1

theorem set_current_cell_auto_wrap (t : TermState) (g : List Nat) :
    (t.set_current_cell g).auto_wrap = t.auto_wrap := by
  unfold TermState.set_current_cell
  exact withScr_auto_wrap _ _

theorem set_current_cell_wrap_next (t : TermState) (g : List Nat) :
    (t.set_current_cell g).wrap_next = t.wrap_next := by
  unfold TermState.set_current_cell
  exact withScr_wrap_next _ _

theorem set_cursor_wrap_next (t : TermState) (r c : Int) :
    (t.set_cursor r c).wrap_next = false := rfl

end HelperLemmas

section SpecSideDefinitions

/-- Spec-side description of the deferred-wrap resolution, following the
spec's words: perform the line-wrap (scroll-up if at the scroll-region
bottom, else move down one row) and home to column 1; Term::set_cursor
clears the deferred-wrap flag. -/
def wrapThenHome (t : TermState) : TermState :=
  let t1 := if t.row = t.scbottom then t.scroll_up else t.move_cursor 1 0 true
  t1.set_cursor t1.row 1

/-- Well-formedness the Screen maintains for its own fields: the line
count invariant together with the clamped bounds that set_scroll and
set_dimensions enforce on the scroll region. -/
def ScreenWF (s : Screen) : Prop :=
  s.lines.length = s.scrollback + s.height ∧ 1 ≤ s.height ∧
  0 ≤ s.scroll_t ∧ s.scroll_t ≤ (s.height : Int) ∧
  0 ≤ s.scroll_b ∧ s.scroll_b ≤ (s.height : Int)

instance (s : Screen) : Decidable (ScreenWF s) := by
  unfold ScreenWF
  infer_instance

/-- The glyph stored at a 1-based page position of the active screen. -/
def cellGlyph (t : TermState) (row col : Int) : List Nat :=
  ((t.scr.lines.getD ((t.scr.scrollback : Int) + row - 1).toNat default).cells.getD
    (col - 1).toNat default).glyph

/-- An 8x3 terminal with glyphs X and Y at page cells (2,1) and (2,2) and
the cursor at (2,2): the concrete state for exercising erase-backward. -/
def eraseBackState : TermState :=
  (((initTerm 8 3 0).set_cell 2 1 [88]).set_cell 2 2 [89]).set_cursor 2 2

end SpecSideDefinitions

section ProofHelpers

theorem length_modifyAt (l : List α) (i : Nat) (f : α → α) :
    (modifyAt l i f).length = l.length := by
  unfold modifyAt
  cases l.get? i <;> simp

theorem length_resizeTo (l : List α) (n : Nat) (fill : α) :
    (resizeTo l n fill).length = n := by
  unfold resizeTo
  simp [List.length_take]
  omega

theorem length_eraseIdx_of_lt {α : Type} {l : List α} {i : Nat} (h : i < l.length) :
    (l.eraseIdx i).length = l.length - 1 := by
  have := List.length_eraseIdx_add_one h
  omega

theorem foldl_preserve {α β : Type} (len : α → Nat) (step : α → β → α)
    (hstep : ∀ a b, len (step a b) = len a) (xs : List β) (a : α) :
    len (xs.foldl step a) = len a := by
  induction xs generalizing a with
  | nil => rfl
  | cons x xs ih => rw [List.foldl_cons, ih, hstep]

theorem length_mark_band (s : Screen) :
    (s.mark_band_dirty).lines.length = s.lines.length := by
  unfold Screen.mark_band_dirty
  exact foldl_preserve List.length _ (fun ls i => length_modifyAt ls _ _) _ s.lines

theorem length_rotate (lines : List Line) (di : Nat) (nr : Int) (x : Line)
    (hdi : di < lines.length) :
    (if nr > ((lines.eraseIdx di).length : Int) then lines.eraseIdx di ++ [x]
     else (lines.eraseIdx di).insertIdx (nr - 1).toNat x).length = lines.length := by
  have hlen1 := length_eraseIdx_of_lt hdi
  split
  case isTrue h => simp [hlen1]; omega
  case isFalse h =>
    rw [List.length_insertIdx]
    · omega
    · omega

theorem length_rotate2 (lines : List Line) (di : Nat) (nr : Int) (x : Line)
    (hdi : di < lines.length) (hnr : nr ≤ (lines.length : Int)) :
    ((lines.eraseIdx di).insertIdx (nr - 1).toNat x).length = lines.length := by
  have hlen1 := length_eraseIdx_of_lt hdi
  rw [List.length_insertIdx] <;> omega

theorem scbottom_bounds (s : Screen) (h : ScreenWF s) :
    1 ≤ s.scbottom ∧ s.scbottom ≤ (s.height : Int) := by
  obtain ⟨hN, hh, ht0, hth, hb0, hbh⟩ := h
  unfold Screen.scbottom
  split <;> omega

theorem scroll_up_length (s : Screen) (a : Attrs) (h : ScreenWF s) :
    (s.scroll_up a).lines.length = s.scrollback + s.height := by
  obtain ⟨hsb1, hsbh⟩ := scbottom_bounds s h
  obtain ⟨hN, hh, ht0, hth, hb0, hbh⟩ := h
  unfold Screen.scroll_up
  rw [length_mark_band]
  simp only []
  rw [length_rotate]
  · exact hN
  · split <;> omega

theorem scroll_down_length (s : Screen) (a : Attrs) (h : ScreenWF s) :
    (s.scroll_down a).lines.length = s.scrollback + s.height := by
  obtain ⟨hsb1, hsbh⟩ := scbottom_bounds s h
  obtain ⟨hN, hh, ht0, hth, hb0, hbh⟩ := h
  unfold Screen.scroll_down
  rw [length_mark_band]
  simp only []
  have hdi : ((s.scrollback : Int) + s.scbottom - 1).toNat < s.lines.length := by omega
  rw [length_rotate2 _ _ _ _ hdi]
  · exact hN
  · have := length_eraseIdx_of_lt hdi
    split <;> omega

theorem insert_line_length (s : Screen) (row : Int) (a : Attrs) (h : ScreenWF s) :
    (s.insert_line row a).lines.length = s.scrollback + s.height := by
  obtain ⟨hsb1, hsbh⟩ := scbottom_bounds s h
  obtain ⟨hN, hh, ht0, hth, hb0, hbh⟩ := h
  unfold Screen.insert_line
  rw [length_mark_band]
  simp only []
  rw [length_rotate]
  · exact hN
  · omega

theorem delete_line_length (s : Screen) (row : Int) (a : Attrs) (h : ScreenWF s)
    (h1 : 1 ≤ row) (h2 : row ≤ (s.height : Int)) :
    (s.delete_line row a).lines.length = s.scrollback + s.height := by
  obtain ⟨hsb1, hsbh⟩ := scbottom_bounds s h
  obtain ⟨hN, hh, ht0, hth, hb0, hbh⟩ := h
  unfold Screen.delete_line
  simp only []
  have hdi : ((s.scrollback : Int) + row - 1).toNat < s.lines.length := by omega
  have hlen := length_eraseIdx_of_lt hdi
  have key : ((s.lines.eraseIdx ((s.scrollback : Int) + row - 1).toNat).insertIdx
      ((s.scrollback : Int) + s.scbottom - 1).toNat (mkLine s.width a)).length
      = s.lines.length := by
    rw [List.length_insertIdx] <;> omega
  split
  · rw [length_mark_band]
    simp only []
    rw [key]
    exact hN
  · simp only []
    rw [key]
    exact hN

theorem set_length (s : Screen) (r c : Int) (g : List Nat) (a : Attrs) :
    (s.set r c g a).lines.length = s.lines.length := by
  unfold Screen.set
  split
  · rfl
  · simp [length_modifyAt]

theorem insert_cell_length (s : Screen) (r c : Int) (g : List Nat) (a : Attrs) :
    (s.insert r c g a).lines.length = s.lines.length := by
  unfold Screen.insert
  simp [length_modifyAt]

theorem del_cell_length (s : Screen) (r c : Int) (a : Attrs) :
    (s.del_cell r c a).lines.length = s.lines.length := by
  unfold Screen.del_cell
  simp [length_modifyAt]

theorem clear_row_length (s : Screen) (r : Int) (a : Attrs) :
    (s.clear_row r a).lines.length = s.lines.length := by
  unfold Screen.clear_row Screen.clear_row_abs
  simp [length_modifyAt]

theorem term_clear_row_length (t : TermState) (r : Int) :
    (t.clear_row r).scr.lines.length = t.scr.lines.length := by
  unfold TermState.clear_row
  rw [scr_withScr, clear_row_length]

theorem clear_page_length (t : TermState) :
    (t.clear_page).scr.lines.length = t.scr.lines.length := by
  unfold TermState.clear_page
  exact foldl_preserve (fun u => u.scr.lines.length) _
    (fun u r => term_clear_row_length u r) _ t

theorem evictLoop_length (fuel : Nat) (lines : List Line) (num : Nat)
    (h : lines.length ≤ num + fuel) :
    (evictLoop fuel lines num).length = min lines.length num := by
  induction fuel generalizing lines with
  | zero =>
    unfold evictLoop
    rw [if_neg (by omega)]
    omega
  | succ f ih =>
    unfold evictLoop
    by_cases hgt : lines.length > num
    · rw [if_pos hgt]
      show (if ((lines.getLastD default).cells.headD default).glyph.headD 0 = 0 then
              evictLoop f (lines.eraseIdx (lines.length - 1)) num
            else evictLoop f (lines.eraseIdx 0) num).length = min lines.length num
      have e1 : (lines.eraseIdx (lines.length - 1)).length = lines.length - 1 :=
        length_eraseIdx_of_lt (by omega)
      have e2 : (lines.eraseIdx 0).length = lines.length - 1 :=
        length_eraseIdx_of_lt (by omega)
      split
      · rw [ih _ (by omega), e1]; omega
      · rw [ih _ (by omega), e2]; omega
    · rw [if_neg hgt]
      omega

theorem set_dimensions_length (s : Screen) (w hgtN : Nat) (a : Attrs) :
    (s.set_dimensions w hgtN a).lines.length = s.scrollback + hgtN := by
  unfold Screen.set_dimensions
  simp only []
  rw [foldl_preserve List.length _ (fun ls i => length_modifyAt ls _ _)]
  have hev : (evictLoop s.lines.length s.lines (hgtN + s.scrollback)).length
      = min s.lines.length (hgtN + s.scrollback) :=
    evictLoop_length s.lines.length s.lines (hgtN + s.scrollback) (by omega)
  split
  · rw [List.length_map]
    split
    · simp only [List.length_append, List.length_replicate]; omega
    · rw [hev]; omega
  · split
    · simp only [List.length_append, List.length_replicate]; omega
    · rw [hev]; omega

theorem wrapThenHome_wrap_next (t : TermState) : (wrapThenHome t).wrap_next = false := rfl

theorem scr_update_wrap_next (t : TermState) (b : Bool) :
    ({ t with wrap_next := b } : TermState).scr = t.scr := rfl

theorem set_cursor_scr (t : TermState) (r c : Int) :
    (t.set_cursor r c).scr = t.scr.set_cursor r c := by
  unfold TermState.set_cursor
  rw [scr_update_wrap_next, scr_withScr]

theorem set_scroll_scr (t : TermState) (a b : Int) :
    (t.set_scroll a b).scr = t.scr.set_scroll a b := by
  unfold TermState.set_scroll
  rw [scr_withScr]

end ProofHelpers

section Claims

set_option maxRecDepth 100000

/-- C1 counterexample: splitting a byte stream at an arbitrary boundary
does not always produce the same final state as the unsplit feed.
Feeding the stream 0xC3 0xA9 0x41 (latin small e-acute followed by A) to
a fresh 8x3 terminal in one chunk leaves the cursor in column 3, but the
split feed 0xC3 then 0xA9 0x41 leaves it in column 4: the partial-UTF-8
save copies the full glyph length of bytes, which includes the buffer's
appended 0 terminator, so the reassembled stream carries a spurious 0x00
byte and decodes to different cells and a different cursor. -/
theorem C1_counterexample :
    (termUpdate (termUpdate (initTerm 8 3 0) [195]) [169, 65]).col = 4 ∧
    (termUpdate (initTerm 8 3 0) [195, 169, 65]).col = 3 ∧
    (termUpdate (termUpdate (initTerm 8 3 0) [195]) [169, 65]).col ≠
      (termUpdate (initTerm 8 3 0) [195, 169, 65]).col ∧
    (termUpdate (initTerm 8 3 0) [195]).incomplete_utf8 = [195, 0] := by decide

/-- C1 (amended): resumable decoding holds for splits that end a chunk in
an incomplete escape sequence: feeding ESC [ 1 ; 2 H split as
"ESC [" + "1;2H" or as "ESC [ 1" + ";2H" produces exactly the same final
terminal state as the unsplit feed, with the final cursor at row 1,
column 2; the pending incomplete prefix is prepended verbatim to the next
chunk.  (Splits inside a multi-byte UTF-8 glyph are not byte-faithful;
see the counterexample.) -/
theorem C1_csi_split_resumable :
    termUpdate (termUpdate (initTerm 8 3 0) [27, 91]) [49, 59, 50, 72]
      = termUpdate (initTerm 8 3 0) [27, 91, 49, 59, 50, 72] ∧
    termUpdate (termUpdate (initTerm 8 3 0) [27, 91, 49]) [59, 50, 72]
      = termUpdate (initTerm 8 3 0) [27, 91, 49, 59, 50, 72] ∧
    (termUpdate (initTerm 8 3 0) [27, 91, 49, 59, 50, 72]).row = 1 ∧
    (termUpdate (initTerm 8 3 0) [27, 91, 49, 59, 50, 72]).col = 2 := by decide

/-- C2: deferred auto-wrap.  Writing a glyph into the last column with
auto-wrap enabled and no wrap pending arms wrap_next and leaves the
cursor in place at (row, width); a glyph write that finds wrap_next set
(the cursor still in the last column, where only a glyph write can leave
it with the flag set, since every explicit cursor motion clears the flag)
behaves exactly as the spec's wrap-then-home followed by the same write;
and Term::set_cursor always clears wrap_next. -/
theorem C2_deferred_autowrap :
    (∀ (t : TermState) (g : List Nat),
        t.auto_wrap = true → t.wrap_next = false → t.col = (t.width : Int) →
        (putGlyphT t g).wrap_next = true ∧
        (putGlyphT t g).row = t.row ∧ (putGlyphT t g).col = t.col) ∧
    (∀ (t : TermState) (g : List Nat),
        t.wrap_next = true → t.col = (t.width : Int) →
        putGlyphT t g = putGlyphT (wrapThenHome t) g) ∧
    (∀ (t : TermState) (r c : Int), (t.set_cursor r c).wrap_next = false) := by
  refine ⟨?_, ?_, ?_⟩
  · intro t g h1 h2 h3
    unfold putGlyphT
    simp only [h2, Bool.false_eq_true, if_false]
    have hc : (t.set_current_cell g).col = ((t.set_current_cell g).width : Int) := by
      rw [set_current_cell_col, set_current_cell_width, h3]
    have ha : (t.set_current_cell g).auto_wrap = true := by
      rw [set_current_cell_auto_wrap]; exact h1
    rw [if_pos ⟨hc, ha⟩]
    exact ⟨rfl, set_current_cell_row t g, set_current_cell_col t g⟩
  · intro t g h1 h2
    unfold putGlyphT wrapThenHome
    simp only [h1, if_true, h2, wrapThenHome_wrap_next, Bool.false_eq_true, if_false,
               eq_self_iff_true]
    rfl
  · intro t r c
    exact set_cursor_wrap_next t r c

/-- Witness for C2 at a concrete 1x1 terminal (so the cursor column is
the last column) and at a concrete explicit cursor motion. -/
theorem C2_witness :
    ((initTerm 1 1 0).auto_wrap = true ∧ (initTerm 1 1 0).wrap_next = false ∧
      (initTerm 1 1 0).col = ((initTerm 1 1 0).width : Int)) ∧
    ((putGlyphT (initTerm 1 1 0) [65]).wrap_next = true ∧
     (putGlyphT (initTerm 1 1 0) [65]).row = (initTerm 1 1 0).row ∧
     (putGlyphT (initTerm 1 1 0) [65]).col = (initTerm 1 1 0).col) ∧
    putGlyphT { initTerm 1 1 0 with wrap_next := true } [66]
      = putGlyphT (wrapThenHome { initTerm 1 1 0 with wrap_next := true }) [66] ∧
    ((initTerm 1 1 0).set_cursor 3 2).wrap_next = false :=
  ⟨⟨by decide, by decide, by decide⟩,
   C2_deferred_autowrap.1 (initTerm 1 1 0) [65] (by decide) (by decide) (by decide),
   C2_deferred_autowrap.2.1 { initTerm 1 1 0 with wrap_next := true } [66]
     (by decide) (by decide),
   C2_deferred_autowrap.2.2 (initTerm 1 1 0) 3 2⟩

/-- C3: dispatching CSI J with argument 1 at cursor (2,2) on an 8x3
screen.  The claim requires columns 1..2 of row 2 to be blanked; the code
leaves both (the column loop "for (col = 1; col >= cursor; col += 1)"
runs zero iterations whenever the cursor column exceeds 1, and when the
cursor column is 1 it only terminates by wrapping the 32-bit counter past
INT_MAX).  The X and Y glyphs written beforehand survive untouched. -/
theorem C3_eraseJ1_failing_input :
    cellGlyph (execCSI eraseBackState { args := [1], command := 74, complete := true }) 2 1
      = [88] ∧
    cellGlyph (execCSI eraseBackState { args := [1], command := 74, complete := true }) 2 2
      = [89] ∧
    csiJ1colLoop (2 ^ 32) 1 eraseBackState = eraseBackState := by decide

/-- C4: the n (device status report) handler compares the parsed numeric
argument against the character literals for 5 and 6 (values 53 and 54),
so dispatching ESC [ 6 n writes nothing to the pty (and ESC [ 5 n writes
nothing either); only the argument value 54 produces the cursor report,
here ESC [ 1 ; 1 R.  Feeding the full byte sequence of ESC [ 6 n through
the decode loop also produces no output. -/
theorem C4_dsr_failing_input :
    (execCSI (initTerm 8 3 0) { args := [6], command := 110, complete := true }).output
      = [] ∧
    (execCSI (initTerm 8 3 0) { args := [5], command := 110, complete := true }).output
      = [] ∧
    (execCSI (initTerm 8 3 0) { args := [54], command := 110, complete := true }).output
      = [27, 91, 49, 59, 49, 82] ∧
    (termUpdate (initTerm 8 3 0) [27, 91, 54, 110]).output = [] := by decide

/-- C5: the line-count invariant.  set_dimensions establishes a total
line count of scrollback + height (its last conjunct, for the new
height), and every ScreenBuffer mutation preserves the count: the scroll
and insert/delete-line rotations (under the screen's own well-formedness,
and for delete_line an in-page row as all callers pass), the cell-level
set/insert/delete, the row clear, and the page clear. -/
theorem C5_line_count_invariant :
    (∀ (s : Screen) (a : Attrs), ScreenWF s →
        (s.scroll_up a).lines.length = s.scrollback + s.height) ∧
    (∀ (s : Screen) (a : Attrs), ScreenWF s →
        (s.scroll_down a).lines.length = s.scrollback + s.height) ∧
    (∀ (s : Screen) (row : Int) (a : Attrs), ScreenWF s →
        (s.insert_line row a).lines.length = s.scrollback + s.height) ∧
    (∀ (s : Screen) (row : Int) (a : Attrs), ScreenWF s →
        1 ≤ row → row ≤ (s.height : Int) →
        (s.delete_line row a).lines.length = s.scrollback + s.height) ∧
    (∀ (s : Screen) (r c : Int) (g : List Nat) (a : Attrs),
        (s.set r c g a).lines.length = s.lines.length) ∧
    (∀ (s : Screen) (r c : Int) (g : List Nat) (a : Attrs),
        (s.insert r c g a).lines.length = s.lines.length) ∧
    (∀ (s : Screen) (r c : Int) (a : Attrs),
        (s.del_cell r c a).lines.length = s.lines.length) ∧
    (∀ (s : Screen) (r : Int) (a : Attrs),
        (s.clear_row r a).lines.length = s.lines.length) ∧
    (∀ (t : TermState), (t.clear_page).scr.lines.length = t.scr.lines.length) ∧
    (∀ (s : Screen) (w h : Nat) (a : Attrs),
        (s.set_dimensions w h a).lines.length = s.scrollback + h) :=
  ⟨scroll_up_length, scroll_down_length, insert_line_length, delete_line_length,
   set_length, insert_cell_length, del_cell_length, clear_row_length,
   clear_page_length, set_dimensions_length⟩

/-- Witness for C5 at a concrete well-formed 2x2 screen with one
scrollback row. -/
theorem C5_witness :
    ScreenWF (initScreen 2 2 1) ∧
    ((initScreen 2 2 1).scroll_up zeroAttr).lines.length
      = (initScreen 2 2 1).scrollback + (initScreen 2 2 1).height ∧
    ((initScreen 2 2 1).delete_line 1 zeroAttr).lines.length
      = (initScreen 2 2 1).scrollback + (initScreen 2 2 1).height ∧
    ((initScreen 2 2 1).set_dimensions 3 4 zeroAttr).lines.length
      = (initScreen 2 2 1).scrollback + 4 :=
  ⟨by decide,
   C5_line_count_invariant.1 (initScreen 2 2 1) zeroAttr (by decide),
   C5_line_count_invariant.2.2.2.1 (initScreen 2 2 1) 1 zeroAttr
     (by decide) (by decide) (by decide),
   C5_line_count_invariant.2.2.2.2.2.2.2.2.2 (initScreen 2 2 1) 3 4 zeroAttr⟩

/-- C6 counterexample: Screen::set only rejects row > height and
col > width, not positions below 1, so setCell(0, 1, X) on a 2x2 screen
with one scrollback row writes the glyph into the scrollback history line
(absolute row 1), contradicting the claim that every out-of-page write is
a no-op touching no cell. -/
theorem C6_counterexample :
    ((((initScreen 2 2 1).set 0 1 [88] zeroAttr).lines.getD 0 default).cells.getD
        0 default).glyph = [88] ∧
    ((initScreen 2 2 1).set 0 1 [88] zeroAttr).lines ≠ (initScreen 2 2 1).lines := by decide

/-- C6 (amended): for row > height or col > width, Screen::set is a
strict no-op: the screen value is returned unchanged and no index is
accessed. -/
theorem C6_oob_noop :
    ∀ (s : Screen) (row col : Int) (g : List Nat) (a : Attrs),
      row > (s.height : Int) ∨ col > (s.width : Int) → s.set row col g a = s := by
  intro s row col g a h
  unfold Screen.set
  rw [if_pos h]

/-- Witness for C6 at a concrete out-of-page position. -/
theorem C6_witness :
    ((5 : Int) > (((initScreen 2 2 1).height : Nat) : Int) ∨
      (1 : Int) > (((initScreen 2 2 1).width : Nat) : Int)) ∧
    (initScreen 2 2 1).set 5 1 [88] zeroAttr = initScreen 2 2 1 :=
  ⟨by decide, C6_oob_noop (initScreen 2 2 1) 5 1 [88] zeroAttr (by decide)⟩

/-- C7 counterexample: the parameter string 1;;3 before command byte m
parses to the argument list [1, 3], not [1, 0, 3]: only semicolons seen
before the first digit push a zero-valued argument; delimiters after a
numeric argument are consumed without pushing anything. -/
theorem C7_counterexample :
    (parseCSI [49, 59, 59, 51, 109, 0]).args = [1, 3] ∧
    (parseCSI [49, 59, 59, 51, 109, 0]).args ≠ [1, 0, 3] := by decide

/-- C7 (amended): each semicolon before the first digit pushes a
zero-valued argument, so ;5H parses to [0,5] and ;;5H to [0,0,5]; but a
semicolon run between numeric parameters collapses, so 1;;3H parses to
[1,3] exactly like 1;3H. -/
theorem C7_csi_args_parsing :
    (parseCSI [59, 53, 72, 0]).args = [0, 5] ∧
    (parseCSI [59, 59, 53, 72, 0]).args = [0, 0, 5] ∧
    (parseCSI [49, 59, 59, 51, 72, 0]).args = [1, 3] ∧
    (parseCSI [49, 59, 51, 72, 0]).args = [1, 3] := by decide

/-- C8 counterexample: the Delete key is encoded as the single byte P
(0x50) in both keypad modes - not as a fixed multi-byte CSI escape
sequence as the claim states. -/
theorem C8_counterexample :
    keysEncode false TKey.delKey = [80] ∧
    keysEncode true TKey.delKey = [80] ∧
    (keysEncode false TKey.delKey).take 2 ≠ [27, 91] := by decide

/-- C8 (amended): arrows and Home/End get the two-byte ESC O (application
keypad) or ESC [ lead followed by their fixed letter; PageUp/PageDown,
Shift-Tab, Menu and F5..F12 are fixed CSI sequences independent of mode;
F1..F4 are fixed ESC O sequences; Delete is the bare byte P; printable
keys pass through as their low byte. -/
theorem C8_key_encoding :
    ∀ (app : Bool),
      keysEncode app TKey.arrowUp = [27, if app then 79 else 91, 65] ∧
      keysEncode app TKey.arrowDown = [27, if app then 79 else 91, 66] ∧
      keysEncode app TKey.arrowRight = [27, if app then 79 else 91, 67] ∧
      keysEncode app TKey.arrowLeft = [27, if app then 79 else 91, 68] ∧
      keysEncode app TKey.homeKey = [27, if app then 79 else 91, 72] ∧
      keysEncode app TKey.endKey = [27, if app then 79 else 91, 70] ∧
      keysEncode app TKey.delKey = [80] ∧
      keysEncode app TKey.pageUp = [27, 91, 53, 126] ∧
      keysEncode app TKey.pageDown = [27, 91, 54, 126] ∧
      keysEncode app TKey.shiftTab = [27, 91, 90] ∧
      keysEncode app TKey.fn1 = [27, 79, 80] ∧
      keysEncode app TKey.fn2 = [27, 79, 81] ∧
      keysEncode app TKey.fn3 = [27, 79, 82] ∧
      keysEncode app TKey.fn4 = [27, 79, 83] ∧
      keysEncode app TKey.fn5 = [27, 91, 49, 53, 126] ∧
      keysEncode app TKey.fn12 = [27, 91, 50, 52, 126] ∧
      keysEncode app TKey.menuKey = [27, 91, 50, 57, 126] ∧
      (∀ c : Nat, keysEncode app (TKey.printable c) = [c % 256]) := by
  intro app
  cases app <;>
    exact ⟨rfl, rfl, rfl, rfl, rfl, rfl, rfl, rfl, rfl, rfl, rfl, rfl, rfl, rfl, rfl,
           rfl, rfl, fun c => rfl⟩

/-- C9: the CSI r (set scrolling region) dispatch re-homes the cursor to
(1,1) for every argument list (on any screen with positive dimensions),
and when exactly two arguments arrive with the second smaller than the
first, the scroll region fields are left exactly as they were. -/
theorem C9_scroll_region_set :
    ∀ (t : TermState) (args : List Int), 1 ≤ t.height → 1 ≤ t.width →
      ((execCSI t { args := args, command := 114, complete := true }).row = 1 ∧
       (execCSI t { args := args, command := 114, complete := true }).col = 1) ∧
      (∀ a b, args = [a, b] → b < a →
        (execCSI t { args := args, command := 114, complete := true }).scr.scroll_t
          = t.scr.scroll_t ∧
        (execCSI t { args := args, command := 114, complete := true }).scr.scroll_b
          = t.scr.scroll_b) := by
  have hrow : ∀ (u : TermState), 1 ≤ u.height → (u.set_cursor 1 1).row = 1 := by
    intro u hu
    unfold TermState.row
    rw [set_cursor_scr]
    unfold Screen.set_cursor limitI TermState.height at *
    simp only []
    omega
  have hcol : ∀ (u : TermState), 1 ≤ u.width → (u.set_cursor 1 1).col = 1 := by
    intro u hu
    unfold TermState.col
    rw [set_cursor_scr]
    unfold Screen.set_cursor limitI TermState.width at *
    simp only []
    omega
  have hrowss : ∀ (u : TermState) (a b : Int), (u.set_scroll a b).row = u.row := by
    intro u a b
    unfold TermState.row
    rw [set_scroll_scr]
    rfl
  have hcolss : ∀ (u : TermState) (a b : Int), (u.set_scroll a b).col = u.col := by
    intro u a b
    unfold TermState.col
    rw [set_scroll_scr]
    rfl
  have hts : ∀ (u : TermState) (r c : Int),
      (u.set_cursor r c).scr.scroll_t = u.scr.scroll_t := by
    intro u r c
    rw [set_cursor_scr]
    rfl
  have hbs : ∀ (u : TermState) (r c : Int),
      (u.set_cursor r c).scr.scroll_b = u.scr.scroll_b := by
    intro u r c
    rw [set_cursor_scr]
    rfl
  intro t args h1 h2
  match args with
  | [] =>
    refine ⟨⟨?_, ?_⟩, ?_⟩
    · simp only [execCSI]
      norm_num
      rw [hrowss, hrow t h1]
    · simp only [execCSI]
      norm_num
      rw [hcolss, hcol t h2]
    · intro a b hab
      simp at hab
  | [a0] =>
    refine ⟨⟨?_, ?_⟩, ?_⟩
    · simp only [execCSI]
      norm_num
      rw [hrowss, hrow t h1]
    · simp only [execCSI]
      norm_num
      rw [hcolss, hcol t h2]
    · intro a b hab
      simp at hab
  | [a0, b0] =>
    refine ⟨⟨?_, ?_⟩, ?_⟩
    · simp only [execCSI]
      norm_num
      split
      · rw [hrowss, hrow t h1]
      · rw [hrow t h1]
    · simp only [execCSI]
      norm_num
      split
      · rw [hcolss, hcol t h2]
      · rw [hcol t h2]
    · intro a b hab hba
      injection hab with ha hb
      injection hb with hb _
      subst ha
      subst hb
      constructor
      · simp only [execCSI]
        norm_num
        rw [if_neg (by omega)]
        rw [hts]
      · simp only [execCSI]
        norm_num
        rw [if_neg (by omega)]
        rw [hbs]
  | a0 :: b0 :: c0 :: rest =>
    refine ⟨⟨?_, ?_⟩, ?_⟩
    · simp only [execCSI]
      norm_num
      rw [hrow t h1]
    · simp only [execCSI]
      norm_num
      rw [hcol t h2]
    · intro a b hab
      simp at hab

/-- Witness for C9 at a concrete 2x2 terminal with the rejected argument
pair (5, 3). -/
theorem C9_witness :
    (1 ≤ (initTerm 2 2 0).height ∧ 1 ≤ (initTerm 2 2 0).width) ∧
    ((execCSI (initTerm 2 2 0) { args := [5, 3], command := 114, complete := true }).row
        = 1 ∧
     (execCSI (initTerm 2 2 0) { args := [5, 3], command := 114, complete := true }).col
        = 1) ∧
    ((execCSI (initTerm 2 2 0) { args := [5, 3], command := 114, complete := true }).scr.scroll_t
        = (initTerm 2 2 0).scr.scroll_t ∧
     (execCSI (initTerm 2 2 0) { args := [5, 3], command := 114, complete := true }).scr.scroll_b
        = (initTerm 2 2 0).scr.scroll_b) :=
  ⟨⟨by decide, by decide⟩,
   (C9_scroll_region_set (initTerm 2 2 0) [5, 3] (by decide) (by decide)).1,
   (C9_scroll_region_set (initTerm 2 2 0) [5, 3] (by decide) (by decide)).2 5 3 rfl
     (by decide)⟩

/-- C10: the SGR look-ahead is not memory-safe.  ESC [ 38 m parses to the
argument list [38]; dispatching it reaches case 38 with the argument
vector already emptied by SHIFT and reads csi.args[0] out of bounds
(modelled as the none result of the argument interpreter, and as the
undefined-behavior flag on the term state).  The same happens when 38;2
arrives with fewer than three colour components, or 38;5 with none. -/
theorem C10_sgr_oob_failing_input :
    (parseCSI [51, 56, 109, 0]).args = [38] ∧
    (parseCSI [51, 56, 109, 0]).command = 109 ∧
    sgrRun [38] zeroAttr = none ∧
    sgrRun [38, 2, 1, 2] zeroAttr = none ∧
    sgrRun [38, 5] zeroAttr = none ∧
    (execCSI (initTerm 8 3 0) { args := [38], command := 109, complete := true }).ub
      = true := by decide

end Claims
